import Mathlib

/-!
Verification of the DigitalTwin HMI backend telemetry-fusion engine
(`src/hmi/backend/app/main.py`), shallowly embedded in Lean.

Modelling conventions:
* Python floats are modelled as real numbers (no NaN/Inf: `math.isfinite`
  tests are therefore always true in the model).
* Every call to `time.time()` during one handler run is modelled by a single
  `now : ℝ` parameter (the source reads the clock several times within
  microseconds of each other).
* A decoded JSON payload is modelled per topic family as a structure of
  `Option` fields: `none` stands for an absent field (and, for the fields the
  source guards with `try`/`except`, also for an unparseable one).
* Timestamp strings are modelled by their parsed value: `_parse_ts` returns
  the payload's timestamp when present and the receipt time otherwise.
* File/socket I/O is out of the model; where an operation's outcome matters
  (saving a recording) it enters as an explicit boolean environment input.
* `_last_processed` is assigned by `_on_message` but never read anywhere in
  the source, so it is not modelled.  Replay state is likewise untouched by
  the claims below and left out.
-/

namespace DigitalTwin

open Real

noncomputable section

/-- Python `math.atan2 y x`: the angle of the point `(x, y)`, total, with
`atan2 0 0 = 0` exactly as in CPython.  Modelled by the complex argument of
`x + y*I`, which agrees with `atan2` on all of ℝ² (range `(-π, π]`, `arg 0 = 0`). -/
def atan2 (y x : ℝ) : ℝ := Complex.arg ⟨x, y⟩

/-- Python's float modulo `a % b` for the uses in the source (all have `b > 0`):
`a - b * ⌊a / b⌋`, the representative of `a` in `[0, b)`. -/
def pymod (a b : ℝ) : ℝ := a - b * ⌊a / b⌋

/-- Python `math.radians`. -/
def radians (x : ℝ) : ℝ := x * π / 180

/-- `_wrap2pi` from the source: `a % (2 * pi)`. -/
def _wrap2pi (a : ℝ) : ℝ := pymod a (2 * π)

/-- The strings of `SENSOR_STATES` ("Not initialized", "Running", "Degraded",
"Unavailable", "Simulated") as an enumeration. -/
inductive SensorState
  | NotInitialized
  | Running
  | Degraded
  | Unavailable
  | Simulated
deriving DecidableEq, Repr

/-- The values of `SYSTEM_STATE`. -/
inductive SystemState
  | Initializing
  | OK
  | Degraded
  | Unavailable
  | Simulation
deriving DecidableEq, Repr

/-- Which of the two topic namespaces a gps/imu/battery message arrived on:
`live` is the `sensor/*` (physical device) namespace, `sim` the `sim/*`
(simulator) namespace. -/
inductive Origin
  | live
  | sim
deriving DecidableEq, Repr

/-- The subscribed topics, as classified by the handler's dispatch. -/
inductive Topic
  | sensorGps
  | simGps
  | sensorImu
  | simImu
  | sensorBattery
  | simBattery
  | sensorStatus
  | sensorTrack
  | sensorRadar
  | processedRadar
deriving DecidableEq, Repr

/-- A decoded GPS payload.  `none` models an absent field (for `hdop`,
`sats_used`, `sats_in_view`, `heading`, `cog` also an unparseable one, since
the source wraps their conversion in `try`/`except`). -/
structure GpsPayload where
  lat : Option ℝ := none
  lon : Option ℝ := none
  alt : Option ℝ := none
  speed : Option ℝ := none
  heading : Option ℝ := none
  cog : Option ℝ := none
  fix : Option ℤ := none
  hdop : Option ℝ := none
  sats_used : Option ℤ := none
  sats_in_view : Option ℤ := none
  ts : Option ℝ := none

/-- A decoded IMU payload. -/
structure ImuPayload where
  ax : Option ℝ := none
  ay : Option ℝ := none
  az : Option ℝ := none
  gx : Option ℝ := none
  gy : Option ℝ := none
  gz : Option ℝ := none
  mx : Option ℝ := none
  my : Option ℝ := none
  mz : Option ℝ := none
  ts : Option ℝ := none

/-- A decoded battery payload. -/
structure BatteryPayload where
  soc : Option ℝ := none
  ts : Option ℝ := none

/-- A decoded `sensor/status` payload.  `wifi_quality` is stored only when the
JSON value is a string, `wifi_rssi` only when `int(...)` succeeds. -/
structure StatusPayload where
  wifi_rssi : Option ℤ := none
  wifi_quality : Option String := none
  ts : Option ℝ := none

/-- A decoded point-detection payload (`sensor/track`). -/
structure TrackPayload where
  distance : Option ℝ := none
  bearing : Option ℝ := none
  heading : Option ℝ := none

/-- One element of a full radar track-list payload; the source defaults each
missing field to 0 via `t.get("distance", 0)`. -/
structure RadarDet where
  distance : Option ℝ := none
  bearing : Option ℝ := none
  heading : Option ℝ := none

/-- A routed, JSON-decoded message (the router drops undecodable payloads
before doing anything, so those never reach the model). -/
inductive Msg
  | gps (origin : Origin) (p : GpsPayload)
  | imu (origin : Origin) (p : ImuPayload)
  | battery (origin : Origin) (p : BatteryPayload)
  | status (p : StatusPayload)
  | track (p : TrackPayload)
  | radarList (processed : Bool) (dets : List RadarDet)

/-- The topic a message arrived on. -/
def Msg.topic : Msg → Topic
  | .gps .live _ => .sensorGps
  | .gps .sim _ => .simGps
  | .imu .live _ => .sensorImu
  | .imu .sim _ => .simImu
  | .battery .live _ => .sensorBattery
  | .battery .sim _ => .simBattery
  | .status _ => .sensorStatus
  | .track _ => .sensorTrack
  | .radarList true _ => .processedRadar
  | .radarList false _ => .sensorRadar

/-- An internal radar track (`_radar_tracks_internal` entries). -/
structure RadarTrack where
  distance : ℝ
  bearing : ℝ
  heading : ℝ
  last_seen : ℝ

/-- The published projection of a track (`STATE["radar_tracks"]` entries):
no `last_seen`. -/
structure RadarPub where
  distance : ℝ
  bearing : ℝ
  heading : ℝ

/-- The shared `STATE` record (the spec's NavigationState). -/
structure NavState where
  latitude : Option ℝ
  longitude : Option ℝ
  altitude : Option ℝ
  heading : Option ℝ
  roll : Option ℝ
  pitch : Option ℝ
  cog : Option ℝ
  estimated_speed : Option ℝ
  estimated_speed_confidence : Option ℝ
  true_speed : Option ℝ
  rate_of_turn : Option ℝ
  imu_temperature : Option ℝ
  latency : Option ℝ
  battery_status : Option ℝ
  gps_signal : Option ℤ
  gps_fix_quality : Option ℤ
  hdop : Option ℝ
  sats_used : Option ℤ
  sats_in_view : Option ℤ
  avg_snr : Option ℝ
  wifi_quality : Option String
  wifi_rssi : Option ℤ
  uptime : Option ℤ
  radar_tracks : List RadarPub

/-- `SENSOR_STATES`. -/
structure SensorStates where
  imu : SensorState
  gps : SensorState
deriving DecidableEq, Repr

/-- `_prev_gps`: the previous fix, kept verbatim (the source stores the raw
payload values, null or not, plus the parsed timestamp). -/
structure PrevGps where
  lat : Option ℝ
  lon : Option ℝ
  ts : ℝ

/-- One entry of `RECORDING_BUFFER`: receipt timestamp, topic and the raw
(here: decoded) payload. -/
structure RecEntry where
  timestamp : ℝ
  topic : Topic
  payload : Msg

/-- The module-level mutable state of `main.py` that the claims touch. -/
structure Model where
  nav : NavState
  sensorStates : SensorStates
  systemState : SystemState
  imuLastValid : Option Bool
  gpsLastValid : Option Bool
  baselineStateImu : Option SensorState
  baselineStateGps : Option SensorState
  baselineLastTsImu : Option ℝ
  baselineLastTsGps : Option ℝ
  lastMessageTime : Option ℝ
  esp32LastMessageTime : Option ℝ
  sensorImuLastTime : Option ℝ
  sensorGpsLastTime : Option ℝ
  simGpsActive : Bool
  simImuActive : Bool
  prevGps : Option PrevGps
  prevImuTs : Option ℝ
  estVelocity : ℝ
  estHeading : ℝ
  radarTracksInternal : List RadarTrack
  recordingActive : Bool
  recordingPaused : Bool
  recordingTopics : Option (List Topic)
  recordingBuffer : List RecEntry
  recordingFile : Option String
  recordingStartTs : Option ℝ
  recordingCount : ℕ

/-- `STATE` as initialised at module load: every field null, no tracks. -/
def initNav : NavState where
  latitude := none
  longitude := none
  altitude := none
  heading := none
  roll := none
  pitch := none
  cog := none
  estimated_speed := none
  estimated_speed_confidence := none
  true_speed := none
  rate_of_turn := none
  imu_temperature := none
  latency := none
  battery_status := none
  gps_signal := none
  gps_fix_quality := none
  hdop := none
  sats_used := none
  sats_in_view := none
  avg_snr := none
  wifi_quality := none
  wifi_rssi := none
  uptime := none
  radar_tracks := []

/-- The module-level state at process start. -/
def initModel : Model where
  nav := initNav
  sensorStates := ⟨.NotInitialized, .NotInitialized⟩
  systemState := .Initializing
  imuLastValid := none
  gpsLastValid := none
  baselineStateImu := none
  baselineStateGps := none
  baselineLastTsImu := none
  baselineLastTsGps := none
  lastMessageTime := none
  esp32LastMessageTime := none
  sensorImuLastTime := none
  sensorGpsLastTime := none
  simGpsActive := false
  simImuActive := false
  prevGps := none
  prevImuTs := none
  estVelocity := 0
  estHeading := 0
  radarTracksInternal := []
  recordingActive := false
  recordingPaused := false
  recordingTopics := none
  recordingBuffer := []
  recordingFile := none
  recordingStartTs := none
  recordingCount := 0

/-- `_haversine` from the source: great-circle distance, Earth radius
6 371 000 m. -/
def _haversine (lat1 lon1 lat2 lon2 : ℝ) : ℝ :=
  let R : ℝ := 6371000.0
  let phi1 := radians lat1
  let phi2 := radians lat2
  let dphi := radians (lat2 - lat1)
  let dlambda := radians (lon2 - lon1)
  let a := Real.sin (dphi / 2) ^ 2 + Real.cos phi1 * Real.cos phi2 * Real.sin (dlambda / 2) ^ 2
  2 * R * atan2 (Real.sqrt a) (Real.sqrt (1 - a))

/-- `_bearing` from the source: great-circle initial bearing, normalised with
`% (2 * 3.141592653589793)` — the hard-coded rational literal of the source,
not `2 * π`. -/
def _bearing (lat1 lon1 lat2 lon2 : ℝ) : ℝ :=
  let phi1 := radians lat1
  let phi2 := radians lat2
  let dlambda := radians (lon2 - lon1)
  let x := Real.sin dlambda * Real.cos phi2
  let y := Real.cos phi1 * Real.sin phi2 - Real.sin phi1 * Real.cos phi2 * Real.cos dlambda
  let b := atan2 x y
  pymod (b + 2 * 3.141592653589793) (2 * 3.141592653589793)

/-- `TRACK_DISTANCE_MAX`. -/
def TRACK_DISTANCE_MAX : ℝ := 5.0
/-- `TRACK_BEARING_MAX`. -/
def TRACK_BEARING_MAX : ℝ := 5.0
/-- `TRACK_HEADING_MAX`. -/
def TRACK_HEADING_MAX : ℝ := 5.0
/-- `TRACK_TIMEOUT`. -/
def TRACK_TIMEOUT : ℝ := 5.0
/-- `IMU_HEADING_OFFSET_RAD = -(pi / 2)`. -/
def IMU_HEADING_OFFSET_RAD : ℝ := -(π / 2)
/-- `IMU_MIRROR_EAST_WEST`. -/
def IMU_MIRROR_EAST_WEST : Bool := true

/-- The match test of `_update_radar_track`: all three absolute differences
within the per-axis tolerances. -/
def trackMatch (t : RadarTrack) (d b h : ℝ) : Prop :=
  |t.distance - d| ≤ TRACK_DISTANCE_MAX ∧ |t.bearing - b| ≤ TRACK_BEARING_MAX ∧
    |t.heading - h| ≤ TRACK_HEADING_MAX

instance (t : RadarTrack) (d b h : ℝ) : Decidable (trackMatch t d b h) := by
  unfold trackMatch; infer_instance

/-- The `for ... break / else` scan of `_update_radar_track`: overwrite the
first matching track in list order, `none` when no track matches. -/
def updateFirstMatch (now d b h : ℝ) : List RadarTrack → Option (List RadarTrack)
  | [] => none
  | t :: rest =>
      if trackMatch t d b h then some (⟨d, b, h, now⟩ :: rest)
      else (updateFirstMatch now d b h rest).map (t :: ·)

/-- `_update_radar_track`: associate-or-append, then evict tracks older than
`TRACK_TIMEOUT`, then republish the survivors (without `last_seen`) into
`STATE["radar_tracks"]`. -/
def _update_radar_track (m : Model) (now d b h : ℝ) : Model :=
  let tracks := (updateFirstMatch now d b h m.radarTracksInternal).getD
    (m.radarTracksInternal ++ [⟨d, b, h, now⟩])
  let tracks := tracks.filter fun t => decide (now - t.last_seen ≤ TRACK_TIMEOUT)
  { m with
    radarTracksInternal := tracks
    nav := { m.nav with radar_tracks := tracks.map fun t => ⟨t.distance, t.bearing, t.heading⟩ } }

/-- Tail of the GPS handler, reached only when `_haversine` did not raise:
update `_prev_gps` and, for live messages, the validity signal and the GPS
sensor state.  Validity: latitude and longitude present and non-zero (always
finite in the model) and `fix`, `hdop`, `sats_used` present. -/
def finishGps (m : Model) (origin : Origin) (p : GpsPayload) (ts : ℝ) : Model :=
  let m1 := { m with prevGps := some ⟨p.lat, p.lon, ts⟩ }
  if origin = .live then
    let lat_ok : Bool := match p.lat with
      | some v => decide (v ≠ 0)
      | none => false
    let lon_ok : Bool := match p.lon with
      | some v => decide (v ≠ 0)
      | none => false
    let valid := lat_ok && lon_ok && p.fix.isSome && p.hdop.isSome && p.sats_used.isSome
    { m1 with
      gpsLastValid := some valid
      sensorStates := { m1.sensorStates with gps := if valid then .Running else .Degraded } }
  else m1

/-- The unconditional-and-guarded `STATE` assignments of the GPS handler, in
source order: latitude/longitude/altitude and the fix metadata are written
with the payload's raw (possibly null) values; `hdop`, `sats_used`,
`sats_in_view` only when present and convertible; speed (knots → m/s, null
when absent) and clamped latency; heading and course-over-ground
(degrees → radians) only when present. -/
def gpsNavUpdate (nav0 : NavState) (p : GpsPayload) (now ts : ℝ) : NavState :=
  let nav := { nav0 with
    latitude := p.lat, longitude := p.lon, altitude := p.alt
    gps_signal := p.fix, gps_fix_quality := p.fix }
  let nav := match p.hdop with
    | some hd => { nav with hdop := some hd }
    | none => nav
  let nav := match p.sats_used with
    | some su => { nav with sats_used := some su }
    | none => nav
  let nav := match p.sats_in_view with
    | some sv => { nav with sats_in_view := some sv }
    | none => nav
  let spd := p.speed.map (· * 0.514444)
  let nav := { nav with true_speed := spd }
  let nav := { nav with latency := some (max 0 (now - ts)) }
  let nav := match p.heading with
    | some hd => { nav with heading := some (radians hd) }
    | none => nav
  match p.cog with
  | some c => { nav with cog := some (radians c) }
  | none => nav

/-- The GPS branch of `_on_message` (topics `sensor/.../gps` and `sim/.../gps`).
When source arbitration drops the message the state is returned untouched.
When a previous fix exists, `dt > 0`, and any of the four coordinates is null,
the source raises `TypeError` inside `_haversine`, aborting the rest of the
handler (no `_prev_gps` or validity update): that abort is modelled by the
wildcard branch below. -/
def gpsStep (m : Model) (now : ℝ) (origin : Origin) (p : GpsPayload) : Model :=
  if (origin = .live ∧ m.simGpsActive = true) ∨ (origin = .sim ∧ m.simGpsActive = false) then m
  else
    let m1 := if origin = .live then
        { m with esp32LastMessageTime := some now, sensorGpsLastTime := some now }
      else m
    let ts := p.ts.getD now
    let nav := gpsNavUpdate m1.nav p now ts
    match m1.prevGps with
    | some pg =>
        let dt := ts - pg.ts
        if dt > 0 then
          match pg.lat, pg.lon, p.lat, p.lon with
          | some plat, some plon, some lat, some lon =>
              let dist := _haversine plat plon lat lon
              let nav := if p.cog = none then
                  { nav with cog := some (_bearing plat plon lat lon) }
                else nav
              let nav := if p.speed = none then
                  { nav with true_speed := some (dist / dt) }
                else nav
              finishGps { m1 with nav := nav } origin p ts
          | _, _, _, _ => { m1 with nav := nav }
        else finishGps { m1 with nav := nav } origin p ts
    | none => finishGps { m1 with nav := nav } origin p ts

/-- The IMU branch of `_on_message` (topics `sensor/.../imu` and `sim/.../imu`).
Follows the source statement by statement: arbitration gate, live timestamps,
attitude from accelerometer, rate-of-turn, dead reckoning (forward velocity and
integrated heading), magnetometer tilt-compensated heading override, live-only
mounting-offset/mirror correction, latency, live-only validity.  The local
`roll` binding of the integration block is dead code in the source and not
modelled. -/
def imuStep (m : Model) (now : ℝ) (origin : Origin) (p : ImuPayload) : Model :=
  if (origin = .live ∧ m.simImuActive = true) ∨ (origin = .sim ∧ m.simImuActive = false) then m
  else
    let m1 := if origin = .live then
        { m with esp32LastMessageTime := some now, sensorImuLastTime := some now }
      else m
    let gz := p.gz.map radians
    let ts := p.ts.getD now
    let nav1 := match p.ax, p.ay, p.az with
      | some ax, some ay, some az =>
          { m1.nav with
            roll := some (-(atan2 ay az))
            pitch := some (-(atan2 (-ax) (Real.sqrt (ay * ay + az * az)))) }
      | _, _, _ => m1.nav
    let nav2 := { nav1 with rate_of_turn := gz }
    let dr : ℝ × NavState × ℝ :=
      match m1.prevImuTs with
      | some pt =>
          let dt := ts - pt
          if dt > 0 then
            let vn : ℝ × NavState :=
              match p.ax, p.ay, p.az with
              | some ax, some _, some _ =>
                  let g : ℝ := 9.80665
                  let pitch := nav2.pitch.getD 0
                  let gx_s := -g * Real.sin pitch
                  let ax_lin := ax - gx_s
                  let v := m1.estVelocity + ax_lin * dt
                  (v, { nav2 with estimated_speed := some v,
                                  estimated_speed_confidence := some 100.0 })
              | _, _, _ => (m1.estVelocity, nav2)
            let h := match gz with
              | some gzv => pymod (m1.estHeading - gzv * dt) (2 * π)
              | none => m1.estHeading
            (vn.1, vn.2, h)
          else (m1.estVelocity, nav2, m1.estHeading)
      | none => (m1.estVelocity, nav2, m1.estHeading)
    let v := dr.1
    let nav3 := dr.2.1
    let h := dr.2.2
    let nav4 := match p.mx, p.my, p.mz, nav3.roll, nav3.pitch with
      | some mx, some my, some mz, some roll, some pitch =>
          let heading_tc := atan2 (my * Real.cos roll - mz * Real.sin roll)
            (mx * Real.cos pitch + my * Real.sin roll * Real.sin pitch +
              mz * Real.cos roll * Real.sin pitch)
          { nav3 with heading := some (pymod heading_tc (2 * π)) }
      | _, _, _, _, _ => { nav3 with heading := some h }
    let nav5 := if origin = .live then
        match nav4.heading with
        | some hv =>
            let h1 := _wrap2pi (hv + IMU_HEADING_OFFSET_RAD)
            let h2 := if IMU_MIRROR_EAST_WEST then _wrap2pi (-h1) else h1
            { nav4 with heading := some h2 }
        | none => nav4
      else nav4
    let nav6 := { nav5 with latency := some (max 0 (now - ts)) }
    let m2 := { m1 with nav := nav6, prevImuTs := some ts, estVelocity := v, estHeading := h }
    if origin = .live then
      let valid := p.ax.isSome && p.ay.isSome && p.az.isSome &&
        p.gx.isSome && p.gy.isSome && p.gz.isSome
      { m2 with
        imuLastValid := some valid
        sensorStates := { m2.sensorStates with imu := if valid then .Running else .Degraded } }
    else m2

/-- The battery branch of `_on_message`: no arbitration; a live message marks
the device as seen; a state-of-charge value `≤ 1` is multiplied by 100 before
being stored; latency is clamped at 0. -/
def batteryStep (m : Model) (now : ℝ) (origin : Origin) (p : BatteryPayload) : Model :=
  let m1 := if origin = .live then { m with esp32LastMessageTime := some now } else m
  let nav := match p.soc with
    | some soc => { m1.nav with battery_status := some (if soc ≤ 1 then soc * 100.0 else soc) }
    | none => m1.nav
  let ts := p.ts.getD now
  { m1 with nav := { nav with latency := some (max 0 (now - ts)) } }

/-- The `sensor/status` branch of `_on_message`.  Unlike the other three
latency writes, the source stores `LAST_MESSAGE_TIME - ts` with no
`max(0, ...)` clamp. -/
def statusStep (m : Model) (now : ℝ) (p : StatusPayload) : Model :=
  let ts := p.ts.getD now
  let nav := match p.wifi_rssi with
    | some r => { m.nav with wifi_rssi := some r }
    | none => m.nav
  let nav := match p.wifi_quality with
    | some q => { nav with wifi_quality := some q }
    | none => nav
  { m with nav := { nav with latency := some (now - ts) } }

/-- The point-detection branch of `_on_message`: only a payload carrying all
three of distance/bearing/heading reaches `_update_radar_track`. -/
def trackStep (m : Model) (now : ℝ) (p : TrackPayload) : Model :=
  match p.distance, p.bearing, p.heading with
  | some d, some b, some h => _update_radar_track m now d b h
  | _, _, _ => m

/-- The full-track-list branch of `_on_message`: wholesale replacement, all
entries stamped with the current time, then republication. -/
def radarListStep (m : Model) (now : ℝ) (dets : List RadarDet) : Model :=
  let tracks := dets.map fun t =>
    RadarTrack.mk (t.distance.getD 0) (t.bearing.getD 0) (t.heading.getD 0) now
  { m with
    radarTracksInternal := tracks
    nav := { m.nav with radar_tracks := tracks.map fun t => ⟨t.distance, t.bearing, t.heading⟩ } }

/-- The recording topic filter: `(not RECORDING_TOPICS) or (topic in set(...))`
— a null or empty filter records everything. -/
def recordTopicPass (filter : Option (List Topic)) (t : Topic) : Bool :=
  match filter with
  | none => true
  | some l => l.isEmpty || l.contains t

/-- The part of `_on_message` that runs for every decoded message before
dispatch: set `LAST_MESSAGE_TIME` to the receipt time and offer the message to
the recorder. -/
def preamble (m : Model) (now : ℝ) (msg : Msg) : Model :=
  let m1 := { m with lastMessageTime := some now }
  if m1.recordingActive = true ∧ m1.recordingPaused = false ∧
      recordTopicPass m1.recordingTopics msg.topic = true then
    { m1 with
      recordingBuffer := m1.recordingBuffer ++ [⟨now, msg.topic, msg⟩]
      recordingCount := m1.recordingCount + 1 }
  else m1

/-- Topic dispatch of `_on_message`. -/
def dispatch (m : Model) (now : ℝ) : Msg → Model
  | .gps origin p => gpsStep m now origin p
  | .imu origin p => imuStep m now origin p
  | .battery origin p => batteryStep m now origin p
  | .status p => statusStep m now p
  | .track p => trackStep m now p
  | .radarList _ dets => radarListStep m now dets

/-- `_on_message`: preamble (receipt time, recorder hook), then dispatch. -/
def _on_message (m : Model) (now : ℝ) (msg : Msg) : Model :=
  dispatch (preamble m now msg) now msg

/-- System-health aggregation from the two (already tick-updated) sensor
states, for the case where no gate is active and the device is not timed out. -/
def aggregateSystem (imu gps : SensorState) : SystemState :=
  if imu = .NotInitialized ∧ gps = .NotInitialized then .Initializing
  else if imu = .Running ∧ gps = .Running then .OK
  else .Degraded

/-- The health evaluation of one `_broadcast_loop` tick (lines 473–510 of the
source): per-sensor simulation/timeout update followed by system-health
aggregation.  The loop's uptime computation and websocket fan-out are I/O and
not modelled. -/
def broadcastHealthTick (m : Model) (nowSec : ℝ) : Model :=
  let imuSt := if m.simImuActive = false then
      match m.sensorImuLastTime with
      | none => m.sensorStates.imu
      | some t => if nowSec - t > 10 then .Unavailable else m.sensorStates.imu
    else .Simulated
  let gpsSt := if m.simGpsActive = false then
      match m.sensorGpsLastTime with
      | none => m.sensorStates.gps
      | some t => if nowSec - t > 10 then .Unavailable else m.sensorStates.gps
    else .Simulated
  let sys := if m.simImuActive = true ∨ m.simGpsActive = true then SystemState.Simulation
    else match m.esp32LastMessageTime with
      | some t => if nowSec - t > 10 then .Unavailable else aggregateSystem imuSt gpsSt
      | none => aggregateSystem imuSt gpsSt
  { m with sensorStates := ⟨imuSt, gpsSt⟩, systemState := sys }

/-- The control verbs of the simulation-control endpoints, after
`strip().upper()`; `none` models an absent or non-string `control` field. -/
inductive SimControl
  | START
  | STOP
  | VECTOR
  | ROUTE
deriving DecidableEq, Repr

/-- State change of the `/sim/imu` endpoint (the republished MQTT control
message is output, not state).  `START` opens the gate and captures the
baseline; `STOP` closes it and restores or re-evaluates the IMU state. -/
def sim_imu (m : Model) (ctrl : Option SimControl) (nowSec : ℝ) : Model :=
  match ctrl with
  | some .START =>
      { m with
        simImuActive := true
        baselineStateImu := some m.sensorStates.imu
        baselineLastTsImu := m.sensorImuLastTime
        sensorStates := { m.sensorStates with imu := .Simulated } }
  | some .STOP =>
      let m1 := { m with simImuActive := false }
      match m1.sensorImuLastTime with
      | none => { m1 with sensorStates := { m1.sensorStates with imu := .NotInitialized } }
      | some last_ts =>
          if m1.baselineLastTsImu = some last_ts then
            { m1 with sensorStates :=
                { m1.sensorStates with imu := m1.baselineStateImu.getD .NotInitialized } }
          else if nowSec - last_ts > 10 then
            { m1 with sensorStates := { m1.sensorStates with imu := .Unavailable } }
          else
            { m1 with sensorStates :=
                { m1.sensorStates with
                  imu := if m1.imuLastValid = some true then .Running else .Degraded } }
  | _ => m

/-- State change of the `/sim/gps` endpoint: `VECTOR`/`ROUTE` open the gate and
capture the baseline; `STOP` closes it and restores or re-evaluates the GPS
state. -/
def sim_gps (m : Model) (ctrl : Option SimControl) (nowSec : ℝ) : Model :=
  match ctrl with
  | some .VECTOR | some .ROUTE =>
      { m with
        simGpsActive := true
        baselineStateGps := some m.sensorStates.gps
        baselineLastTsGps := m.sensorGpsLastTime
        sensorStates := { m.sensorStates with gps := .Simulated } }
  | some .STOP =>
      let m1 := { m with simGpsActive := false }
      match m1.sensorGpsLastTime with
      | none => { m1 with sensorStates := { m1.sensorStates with gps := .NotInitialized } }
      | some last_ts =>
          if m1.baselineLastTsGps = some last_ts then
            { m1 with sensorStates :=
                { m1.sensorStates with gps := m1.baselineStateGps.getD .NotInitialized } }
          else if nowSec - last_ts > 10 then
            { m1 with sensorStates := { m1.sensorStates with gps := .Unavailable } }
          else
            { m1 with sensorStates :=
                { m1.sensorStates with
                  gps := if m1.gpsLastValid = some true then .Running else .Degraded } }
  | _ => m

/-- The result shape of `/recording/stop`: always `{"status": "ok", ...}` —
the endpoint never raises — with the saved file's name and the message count. -/
structure RecordingStopResult where
  file : Option String
  count : ℕ
deriving DecidableEq, Repr

/-- `/recording/stop`.  `ioOk` is the environment input saying whether opening
and serialising to the target file succeeded; on failure the count reported is
0.  The `finally` block always clears the active flag, the buffer and the file
handle. -/
def recording_stop (m : Model) (ioOk : Bool) : RecordingStopResult × Model :=
  if m.recordingActive = false then (⟨none, 0⟩, m)
  else
    let count := if ioOk then m.recordingBuffer.length else 0
    (⟨m.recordingFile, count⟩,
      { m with recordingActive := false, recordingBuffer := [], recordingFile := none })

/-! ### Concrete inputs used by counterexamples and witnesses -/

/-- A `sensor/status` message whose timestamp lies 5 seconds in the future of
the receipt time 0. -/
def statusFutureMsg : StatusPayload := { ts := some 5 }

/-- A state holding a previously received latitude fix and no `_prev_gps`. -/
def modelWithFix : Model :=
  { initModel with nav := { initNav with latitude := some 1 } }

/-- A GPS payload whose `lat` field is absent. -/
def gpsMsgNoLat : GpsPayload := { lon := some 2 }

/-- The initial state with the GPS simulation gate switched on. -/
def gateOnGpsModel : Model := { initModel with simGpsActive := true }

/-- The initial state with the IMU simulation gate switched on. -/
def simImuOnModel : Model := { initModel with simImuActive := true }

/-- An attitude sample with all-zero accelerometer axes and all-zero gyro
rates (no magnetometer), timestamped `t`. -/
def zeroImuSample (t : ℝ) : ImuPayload :=
  { ax := some 0, ay := some 0, az := some 0, gx := some 0, gy := some 0, gz := some 0,
    ts := some t }

/-! ### Helper lemmas -/

theorem atan2_zero_zero : atan2 0 0 = 0 := by
  have h : (⟨0, 0⟩ : ℂ) = 0 := by
    apply Complex.ext <;> simp
  simp only [atan2, h, Complex.arg_zero]

theorem pymod_eq_mul_fract (a : ℝ) {b : ℝ} (hb : b ≠ 0) :
    pymod a b = b * Int.fract (a / b) := by
  unfold pymod Int.fract
  field_simp

theorem pymod_mem_Ico (a : ℝ) {b : ℝ} (hb : 0 < b) : pymod a b ∈ Set.Ico 0 b := by
  rw [pymod_eq_mul_fract a hb.ne']
  constructor
  · exact mul_nonneg hb.le (Int.fract_nonneg _)
  · calc b * Int.fract (a / b) < b * 1 := by
          exact (mul_lt_mul_left hb).2 (Int.fract_lt_one _)
        _ = b := mul_one b

theorem pymod_eq_self {a b : ℝ} (h0 : 0 ≤ a) (h1 : a < b) : pymod a b = a := by
  have hb : 0 < b := h0.trans_lt h1
  have hfloor : ⌊a / b⌋ = 0 := by
    rw [Int.floor_eq_zero_iff]
    exact ⟨div_nonneg h0 hb.le, (div_lt_one hb).2 h1⟩
  simp [pymod, hfloor]

theorem pymod_self {b : ℝ} (hb : b ≠ 0) : pymod b b = 0 := by
  simp [pymod, div_self hb]

theorem preamble_nav (m : Model) (now : ℝ) (msg : Msg) :
    (preamble m now msg).nav = m.nav := by
  unfold preamble
  dsimp only
  split <;> rfl

theorem preamble_sensorStates (m : Model) (now : ℝ) (msg : Msg) :
    (preamble m now msg).sensorStates = m.sensorStates := by
  unfold preamble
  dsimp only
  split <;> rfl

theorem preamble_simGpsActive (m : Model) (now : ℝ) (msg : Msg) :
    (preamble m now msg).simGpsActive = m.simGpsActive := by
  unfold preamble
  dsimp only
  split <;> rfl

theorem preamble_simImuActive (m : Model) (now : ℝ) (msg : Msg) :
    (preamble m now msg).simImuActive = m.simImuActive := by
  unfold preamble
  dsimp only
  split <;> rfl

theorem preamble_esp32 (m : Model) (now : ℝ) (msg : Msg) :
    (preamble m now msg).esp32LastMessageTime = m.esp32LastMessageTime := by
  unfold preamble
  dsimp only
  split <;> rfl

theorem preamble_sensorGpsLastTime (m : Model) (now : ℝ) (msg : Msg) :
    (preamble m now msg).sensorGpsLastTime = m.sensorGpsLastTime := by
  unfold preamble
  dsimp only
  split <;> rfl

theorem preamble_sensorImuLastTime (m : Model) (now : ℝ) (msg : Msg) :
    (preamble m now msg).sensorImuLastTime = m.sensorImuLastTime := by
  unfold preamble
  dsimp only
  split <;> rfl

theorem preamble_prevGps (m : Model) (now : ℝ) (msg : Msg) :
    (preamble m now msg).prevGps = m.prevGps := by
  unfold preamble
  dsimp only
  split <;> rfl

theorem preamble_prevImuTs (m : Model) (now : ℝ) (msg : Msg) :
    (preamble m now msg).prevImuTs = m.prevImuTs := by
  unfold preamble
  dsimp only
  split <;> rfl

theorem preamble_estVelocity (m : Model) (now : ℝ) (msg : Msg) :
    (preamble m now msg).estVelocity = m.estVelocity := by
  unfold preamble
  dsimp only
  split <;> rfl

theorem preamble_estHeading (m : Model) (now : ℝ) (msg : Msg) :
    (preamble m now msg).estHeading = m.estHeading := by
  unfold preamble
  dsimp only
  split <;> rfl

theorem preamble_radarTracksInternal (m : Model) (now : ℝ) (msg : Msg) :
    (preamble m now msg).radarTracksInternal = m.radarTracksInternal := by
  unfold preamble
  dsimp only
  split <;> rfl

theorem preamble_gpsLastValid (m : Model) (now : ℝ) (msg : Msg) :
    (preamble m now msg).gpsLastValid = m.gpsLastValid := by
  unfold preamble
  dsimp only
  split <;> rfl

theorem preamble_imuLastValid (m : Model) (now : ℝ) (msg : Msg) :
    (preamble m now msg).imuLastValid = m.imuLastValid := by
  unfold preamble
  dsimp only
  split <;> rfl

theorem gpsNavUpdate_latitude (nav0 : NavState) (p : GpsPayload) (now ts : ℝ) :
    (gpsNavUpdate nav0 p now ts).latitude = p.lat := by
  unfold gpsNavUpdate
  dsimp only
  (repeat' split) <;> rfl

theorem gpsNavUpdate_longitude (nav0 : NavState) (p : GpsPayload) (now ts : ℝ) :
    (gpsNavUpdate nav0 p now ts).longitude = p.lon := by
  unfold gpsNavUpdate
  dsimp only
  (repeat' split) <;> rfl

theorem gpsNavUpdate_altitude (nav0 : NavState) (p : GpsPayload) (now ts : ℝ) :
    (gpsNavUpdate nav0 p now ts).altitude = p.alt := by
  unfold gpsNavUpdate
  dsimp only
  (repeat' split) <;> rfl

theorem gpsNavUpdate_gps_signal (nav0 : NavState) (p : GpsPayload) (now ts : ℝ) :
    (gpsNavUpdate nav0 p now ts).gps_signal = p.fix := by
  unfold gpsNavUpdate
  dsimp only
  (repeat' split) <;> rfl

theorem gpsNavUpdate_true_speed (nav0 : NavState) (p : GpsPayload) (now ts : ℝ) :
    (gpsNavUpdate nav0 p now ts).true_speed = p.speed.map (· * 0.514444) := by
  unfold gpsNavUpdate
  dsimp only
  (repeat' split) <;> rfl

theorem gpsNavUpdate_heading_none (nav0 : NavState) {p : GpsPayload} (now ts : ℝ)
    (h : p.heading = none) : (gpsNavUpdate nav0 p now ts).heading = nav0.heading := by
  unfold gpsNavUpdate
  dsimp only
  simp only [h]
  (repeat' split) <;> rfl

theorem gpsNavUpdate_cog_none (nav0 : NavState) {p : GpsPayload} (now ts : ℝ)
    (h : p.cog = none) : (gpsNavUpdate nav0 p now ts).cog = nav0.cog := by
  unfold gpsNavUpdate
  dsimp only
  simp only [h]
  (repeat' split) <;> rfl

theorem gpsNavUpdate_hdop_none (nav0 : NavState) {p : GpsPayload} (now ts : ℝ)
    (h : p.hdop = none) : (gpsNavUpdate nav0 p now ts).hdop = nav0.hdop := by
  unfold gpsNavUpdate
  dsimp only
  simp only [h]
  (repeat' split) <;> rfl

theorem gpsNavUpdate_sats_used_none (nav0 : NavState) {p : GpsPayload} (now ts : ℝ)
    (h : p.sats_used = none) : (gpsNavUpdate nav0 p now ts).sats_used = nav0.sats_used := by
  unfold gpsNavUpdate
  dsimp only
  simp only [h]
  (repeat' split) <;> rfl

theorem gpsNavUpdate_sats_in_view_none (nav0 : NavState) {p : GpsPayload} (now ts : ℝ)
    (h : p.sats_in_view = none) :
    (gpsNavUpdate nav0 p now ts).sats_in_view = nav0.sats_in_view := by
  unfold gpsNavUpdate
  dsimp only
  simp only [h]
  (repeat' split) <;> rfl

theorem finishGps_nav (m : Model) (origin : Origin) (p : GpsPayload) (ts : ℝ) :
    (finishGps m origin p ts).nav = m.nav := by
  unfold finishGps
  dsimp only
  split <;> rfl

theorem gpsStep_live_nav_noPrev (m : Model) (now : ℝ) (p : GpsPayload)
    (hgate : m.simGpsActive = false) (hprev : m.prevGps = none) :
    (gpsStep m now .live p).nav = gpsNavUpdate m.nav p now (p.ts.getD now) := by
  simp [gpsStep, hgate, hprev, finishGps_nav]

theorem finishGps_esp32 (m : Model) (origin : Origin) (p : GpsPayload) (ts : ℝ) :
    (finishGps m origin p ts).esp32LastMessageTime = m.esp32LastMessageTime := by
  unfold finishGps
  dsimp only
  split <;> rfl

theorem finishGps_sensorGpsLastTime (m : Model) (origin : Origin) (p : GpsPayload) (ts : ℝ) :
    (finishGps m origin p ts).sensorGpsLastTime = m.sensorGpsLastTime := by
  unfold finishGps
  dsimp only
  split <;> rfl

theorem finishGps_sensorImuLastTime (m : Model) (origin : Origin) (p : GpsPayload) (ts : ℝ) :
    (finishGps m origin p ts).sensorImuLastTime = m.sensorImuLastTime := by
  unfold finishGps
  dsimp only
  split <;> rfl

theorem gpsStep_gated_live (m : Model) (now : ℝ) (p : GpsPayload)
    (h : m.simGpsActive = true) : gpsStep m now .live p = m := by
  simp [gpsStep, h]

theorem gpsStep_gated_sim (m : Model) (now : ℝ) (p : GpsPayload)
    (h : m.simGpsActive = false) : gpsStep m now .sim p = m := by
  simp [gpsStep, h]

theorem imuStep_gated_live (m : Model) (now : ℝ) (p : ImuPayload)
    (h : m.simImuActive = true) : imuStep m now .live p = m := by
  simp [imuStep, h]

theorem imuStep_gated_sim (m : Model) (now : ℝ) (p : ImuPayload)
    (h : m.simImuActive = false) : imuStep m now .sim p = m := by
  simp [imuStep, h]

theorem gpsStep_sensorImuLastTime (m : Model) (now : ℝ) (origin : Origin) (p : GpsPayload) :
    (gpsStep m now origin p).sensorImuLastTime = m.sensorImuLastTime := by
  unfold gpsStep
  dsimp only
  (repeat' split) <;> first | rfl | simp [finishGps_sensorImuLastTime]

theorem gpsStep_sim_esp32 (m : Model) (now : ℝ) (p : GpsPayload) :
    (gpsStep m now .sim p).esp32LastMessageTime = m.esp32LastMessageTime := by
  unfold gpsStep
  dsimp only
  (repeat' split) <;> first | rfl | contradiction

theorem gpsStep_sim_sensorGpsLastTime (m : Model) (now : ℝ) (p : GpsPayload) :
    (gpsStep m now .sim p).sensorGpsLastTime = m.sensorGpsLastTime := by
  unfold gpsStep
  dsimp only
  (repeat' split) <;> first | rfl | contradiction

theorem imuStep_sensorGpsLastTime (m : Model) (now : ℝ) (origin : Origin) (p : ImuPayload) :
    (imuStep m now origin p).sensorGpsLastTime = m.sensorGpsLastTime := by
  cases origin <;> cases hg : m.simImuActive <;> simp [imuStep, hg]

theorem imuStep_sim_esp32 (m : Model) (now : ℝ) (p : ImuPayload) :
    (imuStep m now .sim p).esp32LastMessageTime = m.esp32LastMessageTime := by
  cases hg : m.simImuActive <;> simp [imuStep, hg]

theorem imuStep_sim_sensorImuLastTime (m : Model) (now : ℝ) (p : ImuPayload) :
    (imuStep m now .sim p).sensorImuLastTime = m.sensorImuLastTime := by
  cases hg : m.simImuActive <;> simp [imuStep, hg]

theorem batteryStep_sensorGpsLastTime (m : Model) (now : ℝ) (origin : Origin)
    (p : BatteryPayload) : (batteryStep m now origin p).sensorGpsLastTime =
      m.sensorGpsLastTime := by
  cases origin <;> rfl

theorem batteryStep_sensorImuLastTime (m : Model) (now : ℝ) (origin : Origin)
    (p : BatteryPayload) : (batteryStep m now origin p).sensorImuLastTime =
      m.sensorImuLastTime := by
  cases origin <;> rfl

theorem batteryStep_sim_esp32 (m : Model) (now : ℝ) (p : BatteryPayload) :
    (batteryStep m now .sim p).esp32LastMessageTime = m.esp32LastMessageTime := rfl

theorem statusStep_esp32 (m : Model) (now : ℝ) (p : StatusPayload) :
    (statusStep m now p).esp32LastMessageTime = m.esp32LastMessageTime := rfl

theorem statusStep_sensorGpsLastTime (m : Model) (now : ℝ) (p : StatusPayload) :
    (statusStep m now p).sensorGpsLastTime = m.sensorGpsLastTime := rfl

theorem statusStep_sensorImuLastTime (m : Model) (now : ℝ) (p : StatusPayload) :
    (statusStep m now p).sensorImuLastTime = m.sensorImuLastTime := rfl

theorem trackStep_esp32 (m : Model) (now : ℝ) (p : TrackPayload) :
    (trackStep m now p).esp32LastMessageTime = m.esp32LastMessageTime := by
  rcases p with ⟨d, b, hh⟩
  cases d <;> cases b <;> cases hh <;> rfl

theorem trackStep_sensorGpsLastTime (m : Model) (now : ℝ) (p : TrackPayload) :
    (trackStep m now p).sensorGpsLastTime = m.sensorGpsLastTime := by
  rcases p with ⟨d, b, hh⟩
  cases d <;> cases b <;> cases hh <;> rfl

theorem trackStep_sensorImuLastTime (m : Model) (now : ℝ) (p : TrackPayload) :
    (trackStep m now p).sensorImuLastTime = m.sensorImuLastTime := by
  rcases p with ⟨d, b, hh⟩
  cases d <;> cases b <;> cases hh <;> rfl

theorem radarListStep_esp32 (m : Model) (now : ℝ) (dets : List RadarDet) :
    (radarListStep m now dets).esp32LastMessageTime = m.esp32LastMessageTime := rfl

theorem radarListStep_sensorGpsLastTime (m : Model) (now : ℝ) (dets : List RadarDet) :
    (radarListStep m now dets).sensorGpsLastTime = m.sensorGpsLastTime := rfl

theorem radarListStep_sensorImuLastTime (m : Model) (now : ℝ) (dets : List RadarDet) :
    (radarListStep m now dets).sensorImuLastTime = m.sensorImuLastTime := rfl

/-! ### C2 — source arbitration -/

/-- Claim C2 (confirmed): with the gate active the handler returns straight
after the generic preamble for a live position/attitude message (and with the
gate inactive, for a simulated one), so the message is dropped before any
further processing; the preamble touches nothing but the last-message time and
the recording buffer (conjunct 5), so NavigationState, the health machinery
and the arbitration state see only messages of the selected origin; and the
last-live timestamps used by health timeouts change only on live-origin
messages of the corresponding device family (conjuncts 6–8). -/
theorem source_arbitration (m : Model) (now : ℝ) :
    (∀ p : GpsPayload, m.simGpsActive = true →
      _on_message m now (.gps .live p) = preamble m now (.gps .live p)) ∧
    (∀ p : GpsPayload, m.simGpsActive = false →
      _on_message m now (.gps .sim p) = preamble m now (.gps .sim p)) ∧
    (∀ p : ImuPayload, m.simImuActive = true →
      _on_message m now (.imu .live p) = preamble m now (.imu .live p)) ∧
    (∀ p : ImuPayload, m.simImuActive = false →
      _on_message m now (.imu .sim p) = preamble m now (.imu .sim p)) ∧
    (∀ msg : Msg,
      (preamble m now msg).nav = m.nav ∧
      (preamble m now msg).sensorStates = m.sensorStates ∧
      (preamble m now msg).esp32LastMessageTime = m.esp32LastMessageTime ∧
      (preamble m now msg).sensorGpsLastTime = m.sensorGpsLastTime ∧
      (preamble m now msg).sensorImuLastTime = m.sensorImuLastTime ∧
      (preamble m now msg).prevGps = m.prevGps ∧
      (preamble m now msg).prevImuTs = m.prevImuTs ∧
      (preamble m now msg).estVelocity = m.estVelocity ∧
      (preamble m now msg).estHeading = m.estHeading ∧
      (preamble m now msg).gpsLastValid = m.gpsLastValid ∧
      (preamble m now msg).imuLastValid = m.imuLastValid) ∧
    (∀ msg : Msg, (_on_message m now msg).sensorGpsLastTime ≠ m.sensorGpsLastTime →
      msg.topic = .sensorGps) ∧
    (∀ msg : Msg, (_on_message m now msg).sensorImuLastTime ≠ m.sensorImuLastTime →
      msg.topic = .sensorImu) ∧
    (∀ msg : Msg, (_on_message m now msg).esp32LastMessageTime ≠ m.esp32LastMessageTime →
      msg.topic = .sensorGps ∨ msg.topic = .sensorImu ∨ msg.topic = .sensorBattery) := by
  refine ⟨?_, ?_, ?_, ?_, ?_, ?_, ?_, ?_⟩
  · intro p h
    show gpsStep (preamble m now (.gps .live p)) now .live p = preamble m now (.gps .live p)
    exact gpsStep_gated_live _ _ _ (by rw [preamble_simGpsActive]; exact h)
  · intro p h
    show gpsStep (preamble m now (.gps .sim p)) now .sim p = preamble m now (.gps .sim p)
    exact gpsStep_gated_sim _ _ _ (by rw [preamble_simGpsActive]; exact h)
  · intro p h
    show imuStep (preamble m now (.imu .live p)) now .live p = preamble m now (.imu .live p)
    exact imuStep_gated_live _ _ _ (by rw [preamble_simImuActive]; exact h)
  · intro p h
    show imuStep (preamble m now (.imu .sim p)) now .sim p = preamble m now (.imu .sim p)
    exact imuStep_gated_sim _ _ _ (by rw [preamble_simImuActive]; exact h)
  · intro msg
    exact ⟨preamble_nav m now msg, preamble_sensorStates m now msg, preamble_esp32 m now msg,
      preamble_sensorGpsLastTime m now msg, preamble_sensorImuLastTime m now msg,
      preamble_prevGps m now msg, preamble_prevImuTs m now msg,
      preamble_estVelocity m now msg, preamble_estHeading m now msg,
      preamble_gpsLastValid m now msg, preamble_imuLastValid m now msg⟩
  · intro msg h
    cases msg with
    | gps origin p =>
        cases origin with
        | live => rfl
        | sim =>
            exact absurd (by
              show (gpsStep (preamble m now (.gps .sim p)) now .sim p).sensorGpsLastTime = _
              rw [gpsStep_sim_sensorGpsLastTime, preamble_sensorGpsLastTime]) h
    | imu origin p =>
        exact absurd (by
          show (imuStep (preamble m now (.imu origin p)) now origin p).sensorGpsLastTime = _
          rw [imuStep_sensorGpsLastTime, preamble_sensorGpsLastTime]) h
    | battery origin p =>
        exact absurd (by
          show (batteryStep (preamble m now (.battery origin p)) now origin
              p).sensorGpsLastTime = _
          rw [batteryStep_sensorGpsLastTime, preamble_sensorGpsLastTime]) h
    | status p =>
        exact absurd (by
          show (statusStep (preamble m now (.status p)) now p).sensorGpsLastTime = _
          rw [statusStep_sensorGpsLastTime, preamble_sensorGpsLastTime]) h
    | track p =>
        exact absurd (by
          show (trackStep (preamble m now (.track p)) now p).sensorGpsLastTime = _
          rw [trackStep_sensorGpsLastTime, preamble_sensorGpsLastTime]) h
    | radarList pr dets =>
        exact absurd (by
          show (radarListStep (preamble m now (.radarList pr dets)) now
              dets).sensorGpsLastTime = _
          rw [radarListStep_sensorGpsLastTime, preamble_sensorGpsLastTime]) h
  · intro msg h
    cases msg with
    | gps origin p =>
        exact absurd (by
          show (gpsStep (preamble m now (.gps origin p)) now origin p).sensorImuLastTime = _
          rw [gpsStep_sensorImuLastTime, preamble_sensorImuLastTime]) h
    | imu origin p =>
        cases origin with
        | live => rfl
        | sim =>
            exact absurd (by
              show (imuStep (preamble m now (.imu .sim p)) now .sim p).sensorImuLastTime = _
              rw [imuStep_sim_sensorImuLastTime, preamble_sensorImuLastTime]) h
    | battery origin p =>
        exact absurd (by
          show (batteryStep (preamble m now (.battery origin p)) now origin
              p).sensorImuLastTime = _
          rw [batteryStep_sensorImuLastTime, preamble_sensorImuLastTime]) h
    | status p =>
        exact absurd (by
          show (statusStep (preamble m now (.status p)) now p).sensorImuLastTime = _
          rw [statusStep_sensorImuLastTime, preamble_sensorImuLastTime]) h
    | track p =>
        exact absurd (by
          show (trackStep (preamble m now (.track p)) now p).sensorImuLastTime = _
          rw [trackStep_sensorImuLastTime, preamble_sensorImuLastTime]) h
    | radarList pr dets =>
        exact absurd (by
          show (radarListStep (preamble m now (.radarList pr dets)) now
              dets).sensorImuLastTime = _
          rw [radarListStep_sensorImuLastTime, preamble_sensorImuLastTime]) h
  · intro msg h
    cases msg with
    | gps origin p =>
        cases origin with
        | live => exact Or.inl rfl
        | sim =>
            exact absurd (by
              show (gpsStep (preamble m now (.gps .sim p)) now .sim p).esp32LastMessageTime = _
              rw [gpsStep_sim_esp32, preamble_esp32]) h
    | imu origin p =>
        cases origin with
        | live => exact Or.inr (Or.inl rfl)
        | sim =>
            exact absurd (by
              show (imuStep (preamble m now (.imu .sim p)) now .sim p).esp32LastMessageTime = _
              rw [imuStep_sim_esp32, preamble_esp32]) h
    | battery origin p =>
        cases origin with
        | live => exact Or.inr (Or.inr rfl)
        | sim =>
            exact absurd (by
              show (batteryStep (preamble m now (.battery .sim p)) now .sim
                  p).esp32LastMessageTime = _
              rw [batteryStep_sim_esp32, preamble_esp32]) h
    | status p =>
        exact absurd (by
          show (statusStep (preamble m now (.status p)) now p).esp32LastMessageTime = _
          rw [statusStep_esp32, preamble_esp32]) h
    | track p =>
        exact absurd (by
          show (trackStep (preamble m now (.track p)) now p).esp32LastMessageTime = _
          rw [trackStep_esp32, preamble_esp32]) h
    | radarList pr dets =>
        exact absurd (by
          show (radarListStep (preamble m now (.radarList pr dets)) now
              dets).esp32LastMessageTime = _
          rw [radarListStep_esp32, preamble_esp32]) h

/-- Witness for C2 at a concrete input: with the GPS gate active, a live GPS
message leaves everything past the preamble untouched. -/
theorem source_arbitration_witness :
    _on_message gateOnGpsModel 0 (.gps .live gpsMsgNoLat) =
      preamble gateOnGpsModel 0 (.gps .live gpsMsgNoLat) :=
  (source_arbitration gateOnGpsModel 0).1 gpsMsgNoLat rfl

/-! ### C9 — bearing totality and range -/

/-- Claim C9 (confirmed): `_bearing` is a total function of the two coordinate
points (in this model it is defined on all of ℝ⁴, mirroring the source where
`atan2` never raises and the modulus divisor is a fixed non-zero literal), its
value always lies in `[0, 2π)`, and at coincident points (second conjunct) it
is exactly 0. -/
theorem bearing_total_range (lat1 lon1 lat2 lon2 : ℝ) :
    _bearing lat1 lon1 lat2 lon2 ∈ Set.Ico 0 (2 * π) ∧ _bearing lat1 lon1 lat1 lon1 = 0 := by
  have hL : (3.141592653589793 : ℝ) < π := lt_trans (by norm_num) Real.pi_gt_d20
  constructor
  · have h2L : (0 : ℝ) < 2 * 3.141592653589793 := by norm_num
    simp only [_bearing]
    apply Set.mem_of_mem_of_subset (pymod_mem_Ico _ h2L)
    apply Set.Ico_subset_Ico_right
    linarith
  · have hx : Real.sin (radians (lon1 - lon1)) * Real.cos (radians lat1) = 0 := by
      simp [radians, sub_self]
    have hy : Real.cos (radians lat1) * Real.sin (radians lat1) -
        Real.sin (radians lat1) * Real.cos (radians lat1) * Real.cos (radians (lon1 - lon1)) =
          0 := by
      simp [radians, sub_self]
      ring
    simp only [_bearing, hx, hy, atan2_zero_zero, zero_add]
    exact pymod_self (by norm_num)

/-! ### C10 — implicit battery state-of-charge rescaling -/

/-- Claim C10 (confirmed): a battery message with a state-of-charge value `≤ 1`
stores it multiplied by 100, a value `> 1` is stored as-is, and a battery
message without the field leaves the stored battery status unchanged — on both
origins, since the battery branch applies no arbitration. -/
theorem battery_soc_rescaling (m : Model) (now : ℝ) (origin : Origin) (p : BatteryPayload) :
    (_on_message m now (.battery origin p)).nav.battery_status =
      match p.soc with
      | none => m.nav.battery_status
      | some soc => some (if soc ≤ 1 then soc * 100.0 else soc) := by
  cases hsoc : p.soc with
  | none =>
      cases origin <;>
        simp [_on_message, dispatch, batteryStep, hsoc, preamble_nav]
  | some soc =>
      cases origin <;>
        simp [_on_message, dispatch, batteryStep, hsoc, preamble_nav]

/-! ### C6 — latency non-negativity (code bug on the link-status topic) -/

/-- Claim C6 (code bug): the `sensor/status` branch stores
`LAST_MESSAGE_TIME - ts` with no `max(0, ...)` clamp, so a status message with
a future timestamp drives the latency field negative — here to −5 — although
the spec declares latency non-negative and every other latency write clamps. -/
theorem status_latency_negative :
    (_on_message initModel 0 (.status statusFutureMsg)).nav.latency = some (-5) ∧
      ((-5 : ℝ) < 0) := by
  constructor
  · simp [_on_message, dispatch, statusStep, statusFutureMsg, preamble_nav, initModel, initNav]
  · norm_num

/-! ### C1 — sparse overwrite (corrected) -/

/-- Claim C1 (counterexample): a live position message lacking `lat` does not
retain the prior latitude — the handler overwrites `STATE["latitude"]` with
the payload's null, because the assignment is unconditional in the source. -/
theorem gps_missing_lat_clobbers_latitude :
    modelWithFix.nav.latitude = some 1 ∧
      (_on_message modelWithFix 0 (.gps .live gpsMsgNoLat)).nav.latitude = none := by
  constructor
  · rfl
  · simp [_on_message, dispatch, gpsStep, gpsNavUpdate, finishGps, gpsMsgNoLat, modelWithFix,
      initModel, initNav, preamble_nav, preamble_prevGps, preamble_simGpsActive]

/-- Claim C1 (amended, proved): sparse overwrite holds only for the
presence-guarded fields.  For a live position message processed with the GPS
gate inactive and no previous fix: heading, course-over-ground, hdop,
satellites-used and satellites-in-view retain their prior values when absent
from the payload, but latitude, longitude, altitude and the GPS
signal/fix-quality fields are overwritten with the payload's (possibly null)
values, and true-speed becomes null when speed is absent. -/
theorem gps_sparse_only_guarded_fields (m : Model) (now : ℝ) (p : GpsPayload)
    (hgate : m.simGpsActive = false) (hprev : m.prevGps = none) :
    ((_on_message m now (.gps .live p)).nav.latitude = p.lat) ∧
    ((_on_message m now (.gps .live p)).nav.longitude = p.lon) ∧
    ((_on_message m now (.gps .live p)).nav.altitude = p.alt) ∧
    ((_on_message m now (.gps .live p)).nav.gps_signal = p.fix) ∧
    (p.speed = none → (_on_message m now (.gps .live p)).nav.true_speed = none) ∧
    (p.heading = none → (_on_message m now (.gps .live p)).nav.heading = m.nav.heading) ∧
    (p.cog = none → (_on_message m now (.gps .live p)).nav.cog = m.nav.cog) ∧
    (p.hdop = none → (_on_message m now (.gps .live p)).nav.hdop = m.nav.hdop) ∧
    (p.sats_used = none →
      (_on_message m now (.gps .live p)).nav.sats_used = m.nav.sats_used) ∧
    (p.sats_in_view = none →
      (_on_message m now (.gps .live p)).nav.sats_in_view = m.nav.sats_in_view) := by
  have hg2 : (preamble m now (.gps .live p)).simGpsActive = false := by
    rw [preamble_simGpsActive]
    exact hgate
  have hp2 : (preamble m now (.gps .live p)).prevGps = none := by
    rw [preamble_prevGps]
    exact hprev
  have hnav : (_on_message m now (.gps .live p)).nav =
      gpsNavUpdate m.nav p now (p.ts.getD now) := by
    show (gpsStep (preamble m now (.gps .live p)) now .live p).nav = _
    rw [gpsStep_live_nav_noPrev _ _ _ hg2 hp2, preamble_nav]
  refine ⟨by rw [hnav, gpsNavUpdate_latitude], by rw [hnav, gpsNavUpdate_longitude],
    by rw [hnav, gpsNavUpdate_altitude], by rw [hnav, gpsNavUpdate_gps_signal],
    fun hs => by rw [hnav, gpsNavUpdate_true_speed, hs]; rfl,
    fun hh => by rw [hnav, gpsNavUpdate_heading_none _ _ _ hh],
    fun hc => by rw [hnav, gpsNavUpdate_cog_none _ _ _ hc],
    fun hd => by rw [hnav, gpsNavUpdate_hdop_none _ _ _ hd],
    fun hu => by rw [hnav, gpsNavUpdate_sats_used_none _ _ _ hu],
    fun hv => by rw [hnav, gpsNavUpdate_sats_in_view_none _ _ _ hv]⟩

/-- Witness for the amended C1 theorem at a concrete input: the all-absent
payload from the counterexample state. -/
theorem gps_sparse_only_guarded_fields_witness :
    ((_on_message modelWithFix 0 (.gps .live gpsMsgNoLat)).nav.latitude =
        gpsMsgNoLat.lat) ∧
    ((_on_message modelWithFix 0 (.gps .live gpsMsgNoLat)).nav.longitude =
        gpsMsgNoLat.lon) ∧
    ((_on_message modelWithFix 0 (.gps .live gpsMsgNoLat)).nav.altitude =
        gpsMsgNoLat.alt) ∧
    ((_on_message modelWithFix 0 (.gps .live gpsMsgNoLat)).nav.gps_signal =
        gpsMsgNoLat.fix) ∧
    (gpsMsgNoLat.speed = none →
      (_on_message modelWithFix 0 (.gps .live gpsMsgNoLat)).nav.true_speed = none) ∧
    (gpsMsgNoLat.heading = none →
      (_on_message modelWithFix 0 (.gps .live gpsMsgNoLat)).nav.heading =
        modelWithFix.nav.heading) ∧
    (gpsMsgNoLat.cog = none →
      (_on_message modelWithFix 0 (.gps .live gpsMsgNoLat)).nav.cog =
        modelWithFix.nav.cog) ∧
    (gpsMsgNoLat.hdop = none →
      (_on_message modelWithFix 0 (.gps .live gpsMsgNoLat)).nav.hdop =
        modelWithFix.nav.hdop) ∧
    (gpsMsgNoLat.sats_used = none →
      (_on_message modelWithFix 0 (.gps .live gpsMsgNoLat)).nav.sats_used =
        modelWithFix.nav.sats_used) ∧
    (gpsMsgNoLat.sats_in_view = none →
      (_on_message modelWithFix 0 (.gps .live gpsMsgNoLat)).nav.sats_in_view =
        modelWithFix.nav.sats_in_view) :=
  gps_sparse_only_guarded_fields modelWithFix 0 gpsMsgNoLat rfl rfl

/-! ### C3 — broadcast-tick health evaluation -/

theorem broadcastHealthTick_systemState_noSim (m : Model) (now : ℝ)
    (hI : m.simImuActive = false) (hG : m.simGpsActive = false)
    (hto : ∀ t, m.esp32LastMessageTime = some t → now - t ≤ 10) :
    (broadcastHealthTick m now).systemState =
      aggregateSystem (broadcastHealthTick m now).sensorStates.imu
        (broadcastHealthTick m now).sensorStates.gps := by
  cases he : m.esp32LastMessageTime with
  | none => simp [broadcastHealthTick, hI, hG, he]
  | some t =>
      have h10 : ¬(now - t > 10) := not_lt.mpr (hto t he)
      simp [broadcastHealthTick, hI, hG, he, h10]

/-- Claim C3 (confirmed): on a broadcast tick, an active gate forces the
sensor to Simulated; with the gate inactive, a sensor that has live data older
than 10 s becomes Unavailable whatever its prior state; and system health,
computed from the freshly updated sensor states, is Simulation when either
gate is active, else Unavailable when the device was seen but is over 10 s
silent, else Initializing / OK / Degraded by the two-sensor rule. -/
theorem broadcast_tick_health (m : Model) (now : ℝ) :
    (m.simImuActive = true → (broadcastHealthTick m now).sensorStates.imu = .Simulated) ∧
    (m.simGpsActive = true → (broadcastHealthTick m now).sensorStates.gps = .Simulated) ∧
    (∀ t, m.simImuActive = false → m.sensorImuLastTime = some t → now - t > 10 →
      (broadcastHealthTick m now).sensorStates.imu = .Unavailable) ∧
    (∀ t, m.simGpsActive = false → m.sensorGpsLastTime = some t → now - t > 10 →
      (broadcastHealthTick m now).sensorStates.gps = .Unavailable) ∧
    ((m.simImuActive = true ∨ m.simGpsActive = true) →
      (broadcastHealthTick m now).systemState = .Simulation) ∧
    (m.simImuActive = false → m.simGpsActive = false →
      (∀ t, m.esp32LastMessageTime = some t → now - t > 10 →
        (broadcastHealthTick m now).systemState = .Unavailable) ∧
      ((∀ t, m.esp32LastMessageTime = some t → now - t ≤ 10) →
        ((broadcastHealthTick m now).sensorStates.imu = .NotInitialized ∧
            (broadcastHealthTick m now).sensorStates.gps = .NotInitialized →
          (broadcastHealthTick m now).systemState = .Initializing) ∧
        ((broadcastHealthTick m now).sensorStates.imu = .Running ∧
            (broadcastHealthTick m now).sensorStates.gps = .Running →
          (broadcastHealthTick m now).systemState = .OK) ∧
        (¬((broadcastHealthTick m now).sensorStates.imu = .NotInitialized ∧
            (broadcastHealthTick m now).sensorStates.gps = .NotInitialized) →
          ¬((broadcastHealthTick m now).sensorStates.imu = .Running ∧
            (broadcastHealthTick m now).sensorStates.gps = .Running) →
          (broadcastHealthTick m now).systemState = .Degraded))) := by
  refine ⟨?_, ?_, ?_, ?_, ?_, ?_⟩
  · intro h
    simp [broadcastHealthTick, h]
  · intro h
    simp [broadcastHealthTick, h]
  · intro t h1 h2 h3
    simp [broadcastHealthTick, h1, h2, h3]
  · intro t h1 h2 h3
    simp [broadcastHealthTick, h1, h2, h3]
  · intro h
    rcases h with h | h <;> simp [broadcastHealthTick, h]
  · intro hI hG
    constructor
    · intro t he h10
      simp [broadcastHealthTick, hI, hG, he, h10]
    · intro hto
      have hchar := broadcastHealthTick_systemState_noSim m now hI hG hto
      refine ⟨?_, ?_, ?_⟩
      · intro hc
        rw [hchar, hc.1, hc.2]
        rfl
      · intro hc
        rw [hchar, hc.1, hc.2]
        rfl
      · intro hn1 hn2
        rw [hchar]
        unfold aggregateSystem
        rw [if_neg hn1, if_neg hn2]

/-- Witness for C3 at a concrete input: with the GPS gate on, the tick sets
the GPS sensor to Simulated. -/
theorem broadcast_tick_health_witness :
    (broadcastHealthTick gateOnGpsModel 0).sensorStates.gps = .Simulated :=
  (broadcast_tick_health gateOnGpsModel 0).2.1 rfl

/-! ### C4 — simulation-stop state restoration -/

/-- Claim C4 (confirmed): for either sensor, the simulation-stop control sets
NotInitialized when no live message was ever seen; restores the captured
baseline (default NotInitialized) when the last-live timestamp still equals
the captured baseline timestamp; and otherwise re-evaluates fresh —
Unavailable past the 10 s timeout, else Running iff the latest validity signal
is true, else Degraded. -/
theorem sim_stop_restoration (m : Model) (now : ℝ) :
    (m.sensorGpsLastTime = none →
      (sim_gps m (some .STOP) now).sensorStates.gps = .NotInitialized) ∧
    (∀ t, m.sensorGpsLastTime = some t → m.baselineLastTsGps = some t →
      (sim_gps m (some .STOP) now).sensorStates.gps =
        m.baselineStateGps.getD .NotInitialized) ∧
    (∀ t, m.sensorGpsLastTime = some t → m.baselineLastTsGps ≠ some t →
      (sim_gps m (some .STOP) now).sensorStates.gps =
        (if now - t > 10 then .Unavailable
         else if m.gpsLastValid = some true then .Running else .Degraded)) ∧
    (m.sensorImuLastTime = none →
      (sim_imu m (some .STOP) now).sensorStates.imu = .NotInitialized) ∧
    (∀ t, m.sensorImuLastTime = some t → m.baselineLastTsImu = some t →
      (sim_imu m (some .STOP) now).sensorStates.imu =
        m.baselineStateImu.getD .NotInitialized) ∧
    (∀ t, m.sensorImuLastTime = some t → m.baselineLastTsImu ≠ some t →
      (sim_imu m (some .STOP) now).sensorStates.imu =
        (if now - t > 10 then .Unavailable
         else if m.imuLastValid = some true then .Running else .Degraded)) := by
  refine ⟨?_, ?_, ?_, ?_, ?_, ?_⟩
  · intro h
    simp [sim_gps, h]
  · intro t h1 h2
    simp [sim_gps, h1, h2]
  · intro t h1 h2
    simp only [sim_gps, h1, h2, if_neg h2]
    simp [h2]
    split <;> rfl
  · intro h
    simp [sim_imu, h]
  · intro t h1 h2
    simp [sim_imu, h1, h2]
  · intro t h1 h2
    simp only [sim_imu, h1, h2, if_neg h2]
    simp [h2]
    split <;> rfl

/-- Witness for C4 at a concrete input: stopping the GPS simulation with no
live message ever received yields NotInitialized. -/
theorem sim_stop_restoration_witness :
    (sim_gps initModel (some .STOP) 0).sensorStates.gps = .NotInitialized :=
  (sim_stop_restoration initModel 0).1 rfl

/-! ### C5 — radar track association and eviction -/

theorem updateFirstMatch_none (now d b h : ℝ) (l : List RadarTrack)
    (hno : ∀ t ∈ l, ¬trackMatch t d b h) : updateFirstMatch now d b h l = none := by
  induction l with
  | nil => rfl
  | cons t rest ih =>
      unfold updateFirstMatch
      rw [if_neg (hno t (List.mem_cons_self t rest)),
        ih fun x hx => hno x (List.mem_cons_of_mem t hx)]
      rfl

theorem updateFirstMatch_first (now d b h : ℝ) (l : List RadarTrack) (i : ℕ)
    (hi : i < l.length) (hm : trackMatch (l.get ⟨i, hi⟩) d b h)
    (hbefore : ∀ t ∈ l.take i, ¬trackMatch t d b h) :
    updateFirstMatch now d b h l = some (l.set i ⟨d, b, h, now⟩) := by
  induction l generalizing i with
  | nil => exact absurd hi (by simp)
  | cons t rest ih =>
      cases i with
      | zero =>
          unfold updateFirstMatch
          rw [if_pos (show trackMatch t d b h from hm)]
          rfl
      | succ n =>
          unfold updateFirstMatch
          rw [if_neg (hbefore t (by simp)),
            ih n (by simpa using hi) hm fun x hx => hbefore x (by simp [hx])]
          rfl

/-- Claim C5 (confirmed): a point detection overwrites the first track (in
list order) matching within the ±5 tolerances with the new values and a fresh
last-seen; appends a new track when nothing matches; every track older than
the 5 s timeout is absent from the result; and NavigationState's radar-tracks
list is exactly the surviving tracks projected to distance/bearing/heading. -/
theorem radar_track_association (m : Model) (now d b h : ℝ) :
    ((∀ t ∈ m.radarTracksInternal, ¬trackMatch t d b h) →
      (_on_message m now (.track ⟨some d, some b, some h⟩)).radarTracksInternal =
        (m.radarTracksInternal ++ [RadarTrack.mk d b h now]).filter
          fun t => decide (now - t.last_seen ≤ TRACK_TIMEOUT)) ∧
    (∀ i (hi : i < m.radarTracksInternal.length),
      trackMatch (m.radarTracksInternal.get ⟨i, hi⟩) d b h →
      (∀ t ∈ m.radarTracksInternal.take i, ¬trackMatch t d b h) →
      (_on_message m now (.track ⟨some d, some b, some h⟩)).radarTracksInternal =
        (m.radarTracksInternal.set i ⟨d, b, h, now⟩).filter
          fun t => decide (now - t.last_seen ≤ TRACK_TIMEOUT)) ∧
    (∀ t ∈ (_on_message m now (.track ⟨some d, some b, some h⟩)).radarTracksInternal,
      now - t.last_seen ≤ TRACK_TIMEOUT) ∧
    ((_on_message m now (.track ⟨some d, some b, some h⟩)).nav.radar_tracks =
      ((_on_message m now (.track ⟨some d, some b, some h⟩)).radarTracksInternal).map
        fun t => ⟨t.distance, t.bearing, t.heading⟩) := by
  have hstep : _on_message m now (.track ⟨some d, some b, some h⟩) =
      _update_radar_track (preamble m now (.track ⟨some d, some b, some h⟩)) now d b h := rfl
  refine ⟨?_, ?_, ?_, ?_⟩
  · intro hno
    rw [hstep]
    unfold _update_radar_track
    dsimp only
    rw [preamble_radarTracksInternal,
      updateFirstMatch_none now d b h _ hno]
    rfl
  · intro i hi hm hbefore
    rw [hstep]
    unfold _update_radar_track
    dsimp only
    rw [preamble_radarTracksInternal,
      updateFirstMatch_first now d b h _ i hi hm hbefore]
    rfl
  · intro t ht
    rw [hstep] at ht
    unfold _update_radar_track at ht
    dsimp only at ht
    exact of_decide_eq_true (List.mem_filter.mp ht).2
  · rw [hstep]
    rfl

/-- Witness for C5 at a concrete input: with no existing tracks, a detection
is appended (and survives the eviction of an empty history). -/
theorem radar_track_association_witness :
    (_on_message initModel 0 (.track ⟨some 1, some 2, some 3⟩)).radarTracksInternal =
      (initModel.radarTracksInternal ++ [RadarTrack.mk 1 2 3 0]).filter
        (fun t => decide ((0 : ℝ) - t.last_seen ≤ TRACK_TIMEOUT)) :=
  (radar_track_association initModel 0 1 2 3).1 (by simp [initModel])

/-! ### C7 — recording stop -/

/-- Claim C7 (confirmed): with no active session, `/recording/stop` reports a
null file and count 0 and leaves the whole state untouched; with an active
session it reports the target file's name and the buffered count on success or
count 0 on I/O failure (still success-shaped — the model function is total),
and in both cases clears the active flag, the buffer and the file handle. -/
theorem recording_stop_spec (m : Model) (ioOk : Bool) :
    (m.recordingActive = false → recording_stop m ioOk = (⟨none, 0⟩, m)) ∧
    (m.recordingActive = true →
      (recording_stop m ioOk).1.file = m.recordingFile ∧
      (ioOk = true → (recording_stop m ioOk).1.count = m.recordingBuffer.length) ∧
      (ioOk = false → (recording_stop m ioOk).1.count = 0) ∧
      (recording_stop m ioOk).2 =
        { m with recordingActive := false, recordingBuffer := [],
                 recordingFile := none }) := by
  constructor
  · intro hna
    simp [recording_stop, hna]
  · intro ha
    refine ⟨?_, ?_, ?_, ?_⟩
    · simp [recording_stop, ha]
    · intro hio
      simp [recording_stop, ha, hio]
    · intro hio
      simp [recording_stop, ha, hio]
    · simp [recording_stop, ha]

/-- Witness for C7 at a concrete input: stopping with no active session is a
no-op reporting a null file and count 0. -/
theorem recording_stop_spec_witness :
    recording_stop initModel true = (⟨none, 0⟩, initModel) :=
  (recording_stop_spec initModel true).1 rfl

/-! ### C8 — dead-reckoning idempotence -/

theorem imuStep_zero_sample (m : Model) (now t : ℝ) (hgate : m.simImuActive = true)
    (hh0 : 0 ≤ m.estHeading) (hh1 : m.estHeading < 2 * π) :
    (imuStep m now .sim (zeroImuSample t)).estVelocity = m.estVelocity ∧
    (imuStep m now .sim (zeroImuSample t)).estHeading = m.estHeading ∧
    (imuStep m now .sim (zeroImuSample t)).simImuActive = true ∧
    ((imuStep m now .sim (zeroImuSample t)).nav.estimated_speed = m.nav.estimated_speed ∨
      (imuStep m now .sim (zeroImuSample t)).nav.estimated_speed = some m.estVelocity) := by
  have hself : pymod m.estHeading (2 * π) = m.estHeading := pymod_eq_self hh0 hh1
  cases hp : m.prevImuTs with
  | none =>
      refine ⟨?_, ?_, ?_, Or.inl ?_⟩ <;>
        simp [imuStep, hgate, zeroImuSample, hp, radians, atan2_zero_zero, hself]
  | some pt =>
      rcases lt_or_ge pt t with hlt | hge
      · have hdt : t - pt > 0 := by linarith
        refine ⟨?_, ?_, ?_, Or.inr ?_⟩ <;>
          simp [imuStep, hgate, zeroImuSample, hp, hdt, radians, atan2_zero_zero, hself]
      · have hdt : ¬(t - pt > 0) := by linarith
        refine ⟨?_, ?_, ?_, Or.inl ?_⟩ <;>
          simp [imuStep, hgate, zeroImuSample, hp, hdt, radians, atan2_zero_zero, hself]

theorem zero_samples_invariant (ts : List ℝ) (now : ℝ) : ∀ m : Model,
    m.simImuActive = true → 0 ≤ m.estHeading → m.estHeading < 2 * π →
    ((ts.foldl (fun acc t => _on_message acc now (.imu .sim (zeroImuSample t)))
        m).estVelocity = m.estVelocity) ∧
    ((ts.foldl (fun acc t => _on_message acc now (.imu .sim (zeroImuSample t)))
        m).estHeading = m.estHeading) ∧
    ((ts.foldl (fun acc t => _on_message acc now (.imu .sim (zeroImuSample t)))
        m).simImuActive = true) ∧
    (((ts.foldl (fun acc t => _on_message acc now (.imu .sim (zeroImuSample t)))
        m).nav.estimated_speed = m.nav.estimated_speed) ∨
      ((ts.foldl (fun acc t => _on_message acc now (.imu .sim (zeroImuSample t)))
        m).nav.estimated_speed = some m.estVelocity)) := by
  induction ts with
  | nil => exact fun m h1 h2 h3 => ⟨rfl, rfl, h1, Or.inl rfl⟩
  | cons t rest ih =>
      intro m h1 h2 h3
      have hstep := imuStep_zero_sample (preamble m now (.imu .sim (zeroImuSample t))) now t
        (by rw [preamble_simImuActive]; exact h1)
        (by rw [preamble_estHeading]; exact h2)
        (by rw [preamble_estHeading]; exact h3)
      rw [preamble_estVelocity, preamble_estHeading, preamble_nav] at hstep
      have hm1 : _on_message m now (.imu .sim (zeroImuSample t)) =
          imuStep (preamble m now (.imu .sim (zeroImuSample t))) now .sim (zeroImuSample t) :=
        rfl
      rw [← hm1] at hstep
      obtain ⟨hv1, hh1', hs1, he1⟩ := hstep
      have ihm := ih (_on_message m now (.imu .sim (zeroImuSample t))) hs1
        (by rw [hh1']; exact h2) (by rw [hh1']; exact h3)
      obtain ⟨iv, ihh, is, ie⟩ := ihm
      rw [List.foldl_cons]
      refine ⟨by rw [iv, hv1], by rw [ihh, hh1'], is, ?_⟩
      rcases ie with ie | ie
      · rcases he1 with he1 | he1
        · exact Or.inl (by rw [ie, he1])
        · exact Or.inr (by rw [ie, he1])
      · exact Or.inr (by rw [ie, hv1])

/-- Claim C8 (confirmed): feeding any number N ≥ 1 of attitude samples with
all-zero accelerometer axes and all-zero gyro rates and strictly increasing
timestamps (while the samples pass arbitration, here via the simulated origin
with the gate open) leaves the integrated forward-velocity estimate and the
integrated heading (started anywhere in its invariant range [0, 2π)) exactly
unchanged; the exposed estimated-speed field is either untouched or displays
that same unchanged velocity. -/
theorem dead_reckoning_idempotent (m : Model) (now : ℝ) (ts : List ℝ)
    (hgate : m.simImuActive = true) (_hne : ts ≠ []) (_hmono : ts.Chain' (· < ·))
    (hh0 : 0 ≤ m.estHeading) (hh1 : m.estHeading < 2 * π) :
    ((ts.foldl (fun acc t => _on_message acc now (.imu .sim (zeroImuSample t)))
        m).estVelocity = m.estVelocity) ∧
    ((ts.foldl (fun acc t => _on_message acc now (.imu .sim (zeroImuSample t)))
        m).estHeading = m.estHeading) ∧
    (((ts.foldl (fun acc t => _on_message acc now (.imu .sim (zeroImuSample t)))
        m).nav.estimated_speed = m.nav.estimated_speed) ∨
      ((ts.foldl (fun acc t => _on_message acc now (.imu .sim (zeroImuSample t)))
        m).nav.estimated_speed = some m.estVelocity)) := by
  have h := zero_samples_invariant ts now m hgate hh0 hh1
  exact ⟨h.1, h.2.1, h.2.2.2⟩

/-- Witness for C8 at a concrete input: two zero samples at timestamps 0 and 1
from the initial state with the IMU gate open. -/
theorem dead_reckoning_idempotent_witness :
    ((([0, 1] : List ℝ).foldl
        (fun acc t => _on_message acc 0 (.imu .sim (zeroImuSample t)))
        simImuOnModel).estVelocity = simImuOnModel.estVelocity) ∧
    ((([0, 1] : List ℝ).foldl
        (fun acc t => _on_message acc 0 (.imu .sim (zeroImuSample t)))
        simImuOnModel).estHeading = simImuOnModel.estHeading) ∧
    (((([0, 1] : List ℝ).foldl
        (fun acc t => _on_message acc 0 (.imu .sim (zeroImuSample t)))
        simImuOnModel).nav.estimated_speed = simImuOnModel.nav.estimated_speed) ∨
      ((([0, 1] : List ℝ).foldl
        (fun acc t => _on_message acc 0 (.imu .sim (zeroImuSample t)))
        simImuOnModel).nav.estimated_speed = some simImuOnModel.estVelocity)) :=
  dead_reckoning_idempotent simImuOnModel 0 [0, 1] rfl (by simp)
    (by norm_num [List.chain'_cons])
    (by norm_num [simImuOnModel, initModel])
    (by norm_num [simImuOnModel, initModel]; positivity)

end

end DigitalTwin
